import Mathlib

/-!
# daw: component composition and event dispatch (src/main.cpp)

A shallow embedding of `Component`, `Button` and `AppWindow` from `src/main.cpp`
and of the assembly and event-loop body of `main`.

Modelling conventions

* A C++ `int` is an `Int` and its arithmetic is that of the compiled program:
  32 bits, two-complement, results wrapped around (`int32`). Every `+`, `-` and
  `*` of the source on `int` is wrapped; `/` on `int` truncates and is
  `Int.tdiv`.
* Xlib is not part of the repository. Its answers are a parameter (`XServer`),
  and every request the code issues, as well as every line it writes on
  `std::cout` / `std::cerr`, is recorded in a trace of `Call`s, in program order.
* A method `void C::f(args)` becomes `C.f : C -> args -> C × List Call`
  (state after the call, requests issued by the call), or an `Option` of that
  pair when the call can end the process: `none` means the call does not return.
* Members the constructor leaves unset (`color`, `m_gc`, `m_display`,
  `m_marginY`) hold an arbitrary value, supplied to the constructor model.
  The pointer `m_display` is assigned at one place only (main.cpp:81), in the
  block that sets `m_gcInitialized` (main.cpp:80), and neither is ever reset:
  the pointer is set exactly when the flag is. Passing it on while it is unset
  (main.cpp:116, 121, the guards being commented out) makes `SetType`
  dereference it (main.cpp:128) and the call does not return.
-/

namespace Daw

/-! ## Machine integers -/

/-- The value a 32-bit `int` holds after an operation whose mathematical result
is `n`: the result wrapped around into `-2147483648 .. 2147483647`. -/
def int32 (n : Int) : Int := (n + 2147483648) % 4294967296 - 2147483648

/-! ## Xlib handles and records -/

/-- Handle standing for `Display*`. -/
abbrev Display := Nat

/-- Handle standing for the Xlib type `Window`. -/
abbrev Window := Nat

/-- Handle standing for the Xlib type `GC`. -/
abbrev GC := Nat

/-- Handle standing for `XFontStruct*`. -/
abbrev Font := Nat

/-- Record `XColor` of Xlib: the pixel value and the RGB triple. -/
structure XColor where
  pixel : Nat
  red : Nat
  green : Nat
  blue : Nat
deriving DecidableEq, Repr

/-- Answers of the X server and of Xlib, a parameter of the embedding.
`XAllocNamedColor d name` is the content the call leaves in its `XColor`
out-parameters for the default colormap of `d` (the source discards the status);
`XLoadQueryFont` is `none` when Xlib returns a null pointer. -/
structure XServer where
  BlackPixel : Display → Nat
  XCreateGC : Display → Window → Nat → GC
  XAllocNamedColor : Display → String → XColor
  XLoadQueryFont : Display → String → Option Font
  XTextWidth : Font → String → Int

/-- Constant `LineSolid` of `X11/X.h`. -/
def LineSolid : Nat := 0

/-- One observable action of the program: an Xlib request with the arguments the
source passes, or a line written on `std::cout` / `std::cerr`. `XCreateGC`
carries the three members of `XGCValues` selected by the value mask
`GCForeground | GCLineWidth | GCLineStyle`. -/
inductive Call where
  | XCreateGC (display : Display) (window : Window) (foreground : Nat) (line_width : Nat)
      (line_style : Nat)
  | XAllocNamedColor (display : Display) (name : String)
  | XSetForeground (display : Display) (gc : GC) (pixel : Nat)
  | XDrawRectangle (display : Display) (window : Window) (gc : GC) (x y width height : Int)
  | XFillRectangle (display : Display) (window : Window) (gc : GC) (x y width height : Int)
  | XDrawString (display : Display) (window : Window) (gc : GC) (x y : Int) (text : String)
      (length : Nat)
  | XFlush (display : Display)
  | XLoadQueryFont (display : Display) (name : String)
  | XTextWidth (font : Font) (text : String) (length : Nat)
  | XFreeFontInfo (font : Font)
  | cout (line : String)
  | cerr (line : String)
deriving DecidableEq, Repr

/-- Recognises the drawing-context creation request. -/
def Call.isXCreateGC : Call → Bool
  | .XCreateGC _ _ _ _ _ => true
  | _ => false

/-! ## Source types -/

/-- Source `enum ButtonType` (main.cpp:6-8). -/
inductive ButtonType where
  | PRIMARY
  | SECONDARY
  | TERTIARY
deriving DecidableEq, Repr

/-- Source `struct Color` (main.cpp:25-28). -/
structure Color where
  textColor : XColor
  bgColor : XColor
deriving DecidableEq, Repr

/-- Source `class Button : public Component` (main.cpp:10-23, 30-53): the four members
of `Component` followed by the members of `Button`. -/
structure Button where
  m_x : Int
  m_y : Int
  m_width : Int
  m_height : Int
  m_text : String
  m_type : String
  color : Color
  m_gc : GC
  m_display : Display
  m_marginX : Int
  m_marginY : Int
  m_gcInitialized : Bool
deriving DecidableEq, Repr

/-- Values found in the members that `Button::Button` does not set. -/
structure Indeterminate where
  color : Color
  m_gc : GC
  m_display : Display
  m_marginY : Int

/-- Source `Button::Button` (main.cpp:68) with the default member initialisers
`m_marginX = 12` and `m_gcInitialized = false` (main.cpp:47, 52). -/
def Button.new (x y width height : Int) (text : String) (u : Indeterminate) : Button :=
  { m_x := x, m_y := y, m_width := width, m_height := height, m_text := text,
    m_type := "", color := u.color, m_gc := u.m_gc, m_display := u.m_display,
    m_marginX := 12, m_marginY := u.m_marginY, m_gcInitialized := false }

/-! ## Button -/

/-- Source `Button::SetType` (main.cpp:127-150): state after the call, returned value,
requests issued. -/
def Button.SetType (X : XServer) (b : Button) (display : Display) (type : ButtonType) :
    Button × Color × List Call :=
  match type with
  | .PRIMARY =>
    let m_textColor := X.XAllocNamedColor display "black"
    let m_bgColor := X.XAllocNamedColor display "white"
    let b1 := { b with color := { textColor := m_textColor, bgColor := m_bgColor } }
    (b1, b1.color, [.XAllocNamedColor display "black", .XAllocNamedColor display "white"])
  | .SECONDARY =>
    let m_textColor := X.XAllocNamedColor display "blue"
    let m_bgColor := X.XAllocNamedColor display "yellow"
    let b1 := { b with color := { textColor := m_textColor, bgColor := m_bgColor } }
    (b1, b1.color, [.XAllocNamedColor display "blue", .XAllocNamedColor display "yellow"])
  | .TERTIARY =>
    let m_textColor := X.XAllocNamedColor display "black"
    let m_bgColor := X.XAllocNamedColor display "white"
    let b1 := { b with color := { textColor := m_textColor, bgColor := m_bgColor } }
    (b1, b1.color, [.XAllocNamedColor display "black", .XAllocNamedColor display "white"])

/-- Source `Button::countTextPixelSize` (main.cpp:152-162): returned width, requests
issued. `m_text.length()` is the byte length of the label. The method is
private and called from `Draw` only, after the block that sets `m_display`. -/
def Button.countTextPixelSize (X : XServer) (b : Button) : Int × List Call :=
  match X.XLoadQueryFont b.m_display "fixed" with
  | none => (0, [.XLoadQueryFont b.m_display "fixed", .cerr "Failed to load font"])
  | some fontInfo =>
    (X.XTextWidth fontInfo b.m_text,
      [.XLoadQueryFont b.m_display "fixed",
       .XTextWidth fontInfo b.m_text b.m_text.utf8ByteSize,
       .XFreeFontInfo fontInfo])

/-- First block of `Button::Draw` (main.cpp:71-82): the lazy creation of the
drawing context, guarded by `!m_gcInitialized`. -/
def Button.Draw_init (X : XServer) (b : Button) (display : Display) (window : Window) :
    Button × List Call :=
  if !b.m_gcInitialized then
    let foreground := X.BlackPixel display
    let b1 := { b with m_gc := X.XCreateGC display window foreground }
    let r := b1.SetType X display .PRIMARY
    ({ r.1 with color := r.2.1, m_gcInitialized := true, m_display := display },
      Call.XCreateGC display window foreground 1 LineSolid :: r.2.2)
  else
    (b, [])

/-- Second block of `Button::Draw` (main.cpp:84-96): border, background, text,
flush. The requests of each `countTextPixelSize()` argument precede the request
that takes it. -/
def Button.Draw_paint (X : XServer) (b : Button) (display : Display) (window : Window) :
    List Call :=
  [Call.XSetForeground display b.m_gc b.color.textColor.pixel]
    ++ (b.countTextPixelSize X).2
    ++ [Call.XDrawRectangle display window b.m_gc (int32 (b.m_x - 1)) (int32 (b.m_y - 1))
          (int32 (int32 ((b.countTextPixelSize X).1 + b.m_marginX) + 1))
          (int32 (int32 (b.m_height + b.m_marginY) + 1))]
    ++ [Call.XSetForeground display b.m_gc b.color.bgColor.pixel]
    ++ (b.countTextPixelSize X).2
    ++ [Call.XFillRectangle display window b.m_gc b.m_x b.m_y
          (int32 ((b.countTextPixelSize X).1 + b.m_marginX))
          (int32 (b.m_height + b.m_marginY))]
    ++ [Call.XSetForeground display b.m_gc b.color.textColor.pixel]
    ++ [Call.XDrawString display window b.m_gc (int32 (b.m_x + b.m_marginX.tdiv 2))
          (int32 (int32 (b.m_y + b.m_height.tdiv 2) + 5)) b.m_text b.m_text.utf8ByteSize]
    ++ [Call.XFlush display]

/-- Source `Button::Draw` (main.cpp:70-97). -/
def Button.Draw (X : XServer) (b : Button) (display : Display) (window : Window) :
    Button × List Call :=
  let r := b.Draw_init X display window
  (r.1, r.2 ++ r.1.Draw_paint X display window)

/-- The condition of the three inner `if`s of `Button::HandleEvent`
(main.cpp:101, 107, 113):
`x >= m_x && x <= m_x + m_width && y >= m_y && y <= m_y + m_height`,
the two sums being `int` sums. -/
def Button.hit (b : Button) (x y : Int) : Bool :=
  decide (x ≥ b.m_x) && decide (x ≤ int32 (b.m_x + b.m_width)) &&
    decide (y ≥ b.m_y) && decide (y ≤ int32 (b.m_y + b.m_height))

/-- The pointer held by the member `m_display`: set by `Draw` together with
`m_gcInitialized` (main.cpp:80-81), unset before. -/
def Button.display? (b : Button) : Option Display :=
  if b.m_gcInitialized then some b.m_display else none

/-- First statement of `Button::HandleEvent`, on `event == "ButtonPress"`
(main.cpp:100-104). -/
def Button.HandleEvent_press (b : Button) (event : String) (x y : Int) : List Call :=
  if event = "ButtonPress" then
    if b.hit x y then [.cout "Button pressed"] else []
  else []

/-- Second statement of `Button::HandleEvent`, on `event == "ButtonRelease"`
(main.cpp:106-110). -/
def Button.HandleEvent_release (b : Button) (event : String) (x y : Int) : List Call :=
  if event = "ButtonRelease" then
    if b.hit x y then [.cout "Button released"] else []
  else []

/-- Third statement of `Button::HandleEvent`, on `event == "MotionNotify"`
(main.cpp:112-124). Both branches pass `m_display` to `SetType`, which
dereferences it first thing (main.cpp:128): with the pointer unset the call
does not return. -/
def Button.HandleEvent_motion (X : XServer) (b : Button) (event : String) (x y : Int) :
    Option (Button × List Call) :=
  if event = "MotionNotify" then
    if b.hit x y then
      match b.display? with
      | none => none
      | some display =>
        let r := b.SetType X display .SECONDARY
        some (r.1, r.2.2 ++ [.cout "Mouse hover"])
    else
      match b.display? with
      | none => none
      | some display =>
        let r := b.SetType X display .PRIMARY
        some (r.1, r.2.2)
  else
    some (b, [])

/-- Source `Button::HandleEvent` (main.cpp:99-125): the three `if`s in sequence. -/
def Button.HandleEvent (X : XServer) (b : Button) (event : String) (x y : Int) :
    Option (Button × List Call) :=
  let t1 := b.HandleEvent_press event x y
  let t2 := b.HandleEvent_release event x y
  match b.HandleEvent_motion X event x y with
  | none => none
  | some r => some (r.1, t1 ++ t2 ++ r.2)

/-! ## Component and AppWindow -/

/-- The abstract class `Component` (main.cpp:10-23): its two pure virtual
methods, for objects of type `σ` whose actions are recorded as values of
type `τ`. An override either returns (state after, actions) or does not
return (`none`). -/
structure Component (σ τ : Type) where
  Draw : σ → Display → Window → Option (σ × List τ)
  HandleEvent : σ → String → Int → Int → Option (σ × List τ)

/-- The class `Button` as a `Component`: the two overrides. -/
def Button.asComponent (X : XServer) : Component Button Call where
  Draw := fun b display window => some (b.Draw X display window)
  HandleEvent := fun b event x y => b.HandleEvent X event x y

/-- Source `class AppWindow` (main.cpp:55-66): the vector of owned components, each
held by value since ownership is exclusive. -/
structure AppWindow (σ : Type) where
  m_components : List σ

/-- Source `AppWindow::AppWindow` (main.cpp:165). -/
def AppWindow.new {σ : Type} : AppWindow σ := { m_components := [] }

/-- Source `AppWindow::addComponent` (main.cpp:173-175): `push_back`. -/
def AppWindow.addComponent {σ : Type} (w : AppWindow σ) (component : σ) : AppWindow σ :=
  { m_components := w.m_components ++ [component] }

/-- The range-based `for (auto component : m_components) body(component)` of
main.cpp:178-180 and 184-186, front to back. A call that does not return ends
the loop and the process with it. -/
def AppWindow.forEach {σ τ : Type} (body : σ → Option (σ × List τ)) :
    List σ → Option (List σ × List τ)
  | [] => some ([], [])
  | component :: rest =>
    match body component with
    | none => none
    | some r =>
      match AppWindow.forEach body rest with
      | none => none
      | some rs => some (r.1 :: rs.1, r.2 ++ rs.2)

/-- Source `AppWindow::DrawComponents` (main.cpp:177-181). -/
def AppWindow.DrawComponents {σ τ : Type} (V : Component σ τ) (w : AppWindow σ)
    (display : Display) (window : Window) : Option (AppWindow σ × List τ) :=
  match AppWindow.forEach (fun component => V.Draw component display window)
      w.m_components with
  | none => none
  | some r => some ({ m_components := r.1 }, r.2)

/-- Source `AppWindow::HandleComponentEvent` (main.cpp:183-187). -/
def AppWindow.HandleComponentEvent {σ τ : Type} (V : Component σ τ) (w : AppWindow σ)
    (event : String) (x y : Int) : Option (AppWindow σ × List τ) :=
  match AppWindow.forEach (fun component => V.HandleEvent component event x y)
      w.m_components with
  | none => none
  | some r => some ({ m_components := r.1 }, r.2)

/-! ## main -/

/-- Source `buttonNames` (main.cpp:222). -/
def buttonNames : List String := ["File", "Edit", "Help", "About"]

/-- The assembly loop of `main` (main.cpp:224-227), from index `i` on: `u i`
holds the unset members of the `i`-th button. -/
def main_addButtons (u : Nat → Indeterminate) :
    List String → Nat → AppWindow Button → AppWindow Button
  | [], _, appWindow => appWindow
  | name :: rest, i, appWindow =>
    let button := Button.new (int32 ((i : Int) * 37)) 0 0 24 name (u i)
    main_addButtons u rest (i + 1) (appWindow.addComponent button)

/-- The window `main` assembles before it enters the event loop
(main.cpp:220-227). -/
def main_appWindow (u : Nat → Indeterminate) : AppWindow Button :=
  main_addButtons u buttonNames 0 AppWindow.new

/-- The part of an `XEvent` that `main` reads: its type and, for the button and
motion events, the pointer position. -/
inductive XEvent where
  | Expose
  | ButtonPress (x y : Int)
  | ButtonRelease (x y : Int)
  | MotionNotify (x y : Int)
  | KeyPress
deriving DecidableEq, Repr

/-- One pass through the body of the event loop of `main` (main.cpp:232-251)
for the event `XNextEvent` delivered. -/
def main_loopBody (X : XServer) (display : Display) (window : Window)
    (appWindow : AppWindow Button) (event : XEvent) : Option (AppWindow Button × List Call) :=
  match event with
  | .Expose => appWindow.DrawComponents (Button.asComponent X) display window
  | .ButtonPress x y => appWindow.HandleComponentEvent (Button.asComponent X) "ButtonPress" x y
  | .ButtonRelease x y =>
    appWindow.HandleComponentEvent (Button.asComponent X) "ButtonRelease" x y
  | .MotionNotify x y => appWindow.HandleComponentEvent (Button.asComponent X) "MotionNotify" x y
  | .KeyPress => some (appWindow, [])

/-! ## Definitions that follow the words of the specification -/

/-- Hit-test rule of the specification: `x` within `[m_x, m_x + m_width]` and
`y` within `[m_y, m_y + m_height]`, both bounds inclusive, the sums being sums
of integers. -/
def Button.inside (b : Button) (x y : Int) : Prop :=
  (b.m_x ≤ x ∧ x ≤ b.m_x + b.m_width) ∧ (b.m_y ≤ y ∧ y ≤ b.m_y + b.m_height)

instance Button.decidableInside (b : Button) (x y : Int) : Decidable (b.inside x y) := by
  unfold Button.inside
  infer_instance

/-- The right and bottom edges of the rectangle, `m_x + m_width` and
`m_y + m_height`, are values of a 32-bit `int`. -/
def Button.fits (b : Button) : Prop :=
  (-2147483648 ≤ b.m_x + b.m_width ∧ b.m_x + b.m_width ≤ 2147483647)
    ∧ (-2147483648 ≤ b.m_y + b.m_height ∧ b.m_y + b.m_height ≤ 2147483647)

instance Button.decidableFits (b : Button) : Decidable b.fits := by
  unfold Button.fits
  infer_instance

/-- The colour pair (text, background) that the named-colour capability of the
server resolves on `display` for two symbolic names. -/
def namedPair (X : XServer) (display : Display) (text background : String) : Color :=
  { textColor := X.XAllocNamedColor display text,
    bgColor := X.XAllocNamedColor display background }

/-- Colour resolution table of the specification: `Primary -> (black, white)`,
`Secondary -> (blue, yellow)`, `Tertiary -> (black, white)`. -/
def schemeNames : ButtonType → String × String
  | .PRIMARY => ("black", "white")
  | .SECONDARY => ("blue", "yellow")
  | .TERTIARY => ("black", "white")

/-- Visual state of the specification read off the source, which keeps no state
member (`m_type` is never assigned) but only the colour pair `SetType` stored
last: the button is in visual state `t` when `color` is the pair that `SetType`
stores for `t` on the display of the button. -/
def Button.inVisualState (X : XServer) (b : Button) (t : ButtonType) : Prop :=
  b.color = (b.SetType X b.m_display t).2.1

instance Button.decidableInVisualState (X : XServer) (b : Button) (t : ButtonType) :
    Decidable (b.inVisualState X t) := by
  unfold Button.inVisualState
  infer_instance

/-- What a call of a virtual method of `Component` looks like from outside:
the receiver and the arguments. -/
inductive Invocation (σ : Type) where
  | Draw (receiver : σ) (display : Display) (window : Window)
  | HandleEvent (receiver : σ) (event : String) (x y : Int)

/-- Component whose two methods always return, given by what they return. -/
def Component.returning {σ τ : Type} (draw : σ → Display → Window → σ × List τ)
    (handle : σ → String → Int → Int → σ × List τ) : Component σ τ where
  Draw := fun c display window => some (draw c display window)
  HandleEvent := fun c event x y => some (handle c event x y)

/-- Component whose two methods do nothing but record their own invocation. -/
def Component.recorder (σ : Type) : Component σ (Invocation σ) where
  Draw := fun c display window => some (c, [Invocation.Draw c display window])
  HandleEvent := fun c event x y => some (c, [Invocation.HandleEvent c event x y])

/-! ## Runs of calls -/

/-- Consecutive `Draw` calls on one button, the `i`-th with the `i`-th pair
`(display, window)` of the list: for each call, the state after it and the
requests it issued. -/
def Button.drawEach (X : XServer) :
    Button → List (Display × Window) → List (Button × List Call)
  | _, [] => []
  | b, a :: rest => b.Draw X a.1 a.2 :: Button.drawEach X (b.Draw X a.1 a.2).1 rest

/-- Consecutive `HandleEvent` calls on one button, one per `(event, x, y)` of
the list, front to back: the state after the last one, or `none` when one of
the calls does not return. -/
def Button.handleAll (X : XServer) : Button → List (String × Int × Int) → Option Button
  | b, [] => some b
  | b, e :: rest =>
    match b.HandleEvent X e.1 e.2.1 e.2.2 with
    | none => none
    | some r => Button.handleAll X r.1 rest

/-- The last pointer-motion event of a sequence, if there is one. -/
def lastMotion (events : List (String × Int × Int)) : Option (String × Int × Int) :=
  (events.filter (fun e => e.1 = "MotionNotify")).getLast?

/-- The window of `main` after the event loop has processed one `Expose` event on
`display` and `window`. -/
def main_afterExpose (X : XServer) (u : Nat → Indeterminate) (display : Display)
    (window : Window) : Option (AppWindow Button) :=
  (main_loopBody X display window (main_appWindow u) XEvent.Expose).map (fun r => r.1)

/-! ## Sample data for the instances below -/

/-- A server with the usual pixel values of the four colour names, one font
named `fixed`, and six pixels per character. -/
def sampleServer : XServer where
  BlackPixel := fun _ => 0
  XCreateGC := fun _ _ _ => 1
  XAllocNamedColor := fun _ name =>
    if name = "black" then ⟨0, 0, 0, 0⟩
    else if name = "white" then ⟨16777215, 65535, 65535, 65535⟩
    else if name = "blue" then ⟨255, 0, 0, 65535⟩
    else if name = "yellow" then ⟨16776960, 65535, 65535, 0⟩
    else ⟨0, 0, 0, 0⟩
  XLoadQueryFont := fun _ name => if name = "fixed" then some 1 else none
  XTextWidth := fun _ text => 6 * (text.length : Int)

/-- Some content for the members the constructor leaves unset. -/
def sampleIndeterminate : Indeterminate :=
  { color := ⟨⟨7, 7, 7, 7⟩, ⟨9, 9, 9, 9⟩⟩, m_gc := 0, m_display := 0, m_marginY := 0 }

/-- The button of rectangle `(10, 10, 50, 24)` as constructed, never drawn. -/
def freshButton : Button := Button.new 10 10 50 24 "File" sampleIndeterminate

/-- The button of rectangle `(10, 10, 50, 24)` after one `Draw` on display `1`,
window `2` of the sample server. -/
def sampleButton : Button := (freshButton.Draw sampleServer 1 2).1

/-- The never-drawn button of rectangle `(10, 10, 50, 24)` on which
`SetType(display, PRIMARY)` was called from outside, with the display `0` that
its unset `m_display` happens to hold. -/
def primedButton : Button := (freshButton.SetType sampleServer 0 ButtonType.PRIMARY).1

/-- The button `Button(2147483647, 0, 1, 24, "File")` after one `Draw`: its right
edge `m_x + m_width` is one past the largest `int`. -/
def edgeButton : Button :=
  ((Button.new 2147483647 0 1 24 "File" sampleIndeterminate).Draw sampleServer 1 2).1

/-- A sequence of events of all kinds whose last pointer-motion event is at
`(9, 10)`, outside the rectangle `(10, 10, 50, 24)`. -/
def sampleEvents : List (String × Int × Int) :=
  [("MotionNotify", 10, 10), ("ButtonPress", 10, 10), ("MotionNotify", 9, 10),
   ("KeyPress", 0, 0)]

/-! ## Lemmas on the container -/

theorem AppWindow.forEach_returning {σ τ : Type} (body : σ → Option (σ × List τ))
    (h : σ → σ × List τ) (cs : List σ) (hb : ∀ c ∈ cs, body c = some (h c)) :
    AppWindow.forEach body cs
      = some (cs.map (fun c => (h c).1), (cs.map (fun c => (h c).2)).flatten) := by
  induction cs with
  | nil => rfl
  | cons c rest ih =>
    simp [AppWindow.forEach, hb c (List.mem_cons_self c rest),
      ih (fun d hd => hb d (List.mem_cons_of_mem c hd))]

theorem AppWindow.forEach_stops {σ τ : Type} (body : σ → Option (σ × List τ))
    (cs : List σ) (c : σ) (hc : c ∈ cs) (hn : body c = none) :
    AppWindow.forEach body cs = none := by
  induction cs with
  | nil => simp at hc
  | cons d rest ih =>
    rcases List.mem_cons.mp hc with hd | hd
    · subst hd
      simp [AppWindow.forEach, hn]
    · cases hbd : body d with
      | none => simp [AppWindow.forEach, hbd]
      | some r => simp [AppWindow.forEach, hbd, ih hd]

theorem AppWindow.foldl_addComponent {σ : Type} (cs : List σ) (w : AppWindow σ) :
    (cs.foldl AppWindow.addComponent w).m_components = w.m_components ++ cs := by
  induction cs generalizing w with
  | nil => simp
  | cons c rest ih => simp [ih, AppWindow.addComponent]

theorem AppWindow.added_components {σ : Type} (cs : List σ) :
    (cs.foldl AppWindow.addComponent (AppWindow.new : AppWindow σ)).m_components = cs := by
  simp [AppWindow.foldl_addComponent, AppWindow.new]

theorem AppWindow.HandleComponentEvent_returning {σ τ : Type} (V : Component σ τ)
    (h : σ → σ × List τ) (w : AppWindow σ) (event : String) (x y : Int)
    (hV : ∀ c ∈ w.m_components, V.HandleEvent c event x y = some (h c)) :
    w.HandleComponentEvent V event x y
      = some ({ m_components := w.m_components.map (fun c => (h c).1) },
          (w.m_components.map (fun c => (h c).2)).flatten) := by
  simp [AppWindow.HandleComponentEvent,
    AppWindow.forEach_returning (fun c => V.HandleEvent c event x y) h w.m_components hV]

theorem AppWindow.DrawComponents_returning {σ τ : Type} (V : Component σ τ)
    (h : σ → σ × List τ) (w : AppWindow σ) (display : Display) (window : Window)
    (hV : ∀ c ∈ w.m_components, V.Draw c display window = some (h c)) :
    w.DrawComponents V display window
      = some ({ m_components := w.m_components.map (fun c => (h c).1) },
          (w.m_components.map (fun c => (h c).2)).flatten) := by
  simp [AppWindow.DrawComponents,
    AppWindow.forEach_returning (fun c => V.Draw c display window) h w.m_components hV]

theorem map_singleton_flatten {α β : Type} (f : α → β) (l : List α) :
    (l.map (fun c => [f c])).flatten = l.map f := by
  induction l with
  | nil => rfl
  | cons a rest ih => simp [ih]

/-! ## Lemmas on Button -/

theorem int32_of_fits (n : Int) (h : -2147483648 ≤ n ∧ n ≤ 2147483647) : int32 n = n := by
  unfold int32
  omega

theorem Button.hit_iff_inside (b : Button) (x y : Int) (hfits : b.fits) :
    b.hit x y = true ↔ b.inside x y := by
  simp only [Button.hit, Button.inside, int32_of_fits _ hfits.1, int32_of_fits _ hfits.2,
    Bool.and_eq_true, decide_eq_true_eq, ge_iff_le]
  tauto

theorem Button.hit_eq_decide (b : Button) (x y : Int) (hfits : b.fits) :
    b.hit x y = decide (b.inside x y) := by
  rw [Bool.eq_iff_iff, Button.hit_iff_inside b x y hfits]
  simp

theorem Button.SetType_state (X : XServer) (b : Button) (display : Display) (t : ButtonType) :
    (b.SetType X display t).1
      = { b with color := namedPair X display (schemeNames t).1 (schemeNames t).2 } := by
  cases t <;> rfl

theorem Button.SetType_trace (X : XServer) (b : Button) (display : Display) (t : ButtonType) :
    (b.SetType X display t).2.2
      = [Call.XAllocNamedColor display (schemeNames t).1,
         Call.XAllocNamedColor display (schemeNames t).2] := by
  cases t <;> rfl

theorem Button.SetType_result (X : XServer) (b : Button) (display : Display) (t : ButtonType) :
    (b.SetType X display t).2.1 = namedPair X display (schemeNames t).1 (schemeNames t).2 := by
  cases t <;> rfl

theorem Button.display?_drawn (b : Button) (h : b.m_gcInitialized = true) :
    b.display? = some b.m_display := by
  simp [Button.display?, h]

theorem Button.display?_fresh (b : Button) (h : b.m_gcInitialized = false) :
    b.display? = none := by
  simp [Button.display?, h]

theorem Button.HandleEvent_ButtonPress (X : XServer) (b : Button) (x y : Int) :
    b.HandleEvent X "ButtonPress" x y
      = some (b, if b.hit x y = true then [Call.cout "Button pressed"] else []) := by
  simp [Button.HandleEvent, Button.HandleEvent_press, Button.HandleEvent_release,
    Button.HandleEvent_motion]

theorem Button.HandleEvent_ButtonRelease (X : XServer) (b : Button) (x y : Int) :
    b.HandleEvent X "ButtonRelease" x y
      = some (b, if b.hit x y = true then [Call.cout "Button released"] else []) := by
  simp [Button.HandleEvent, Button.HandleEvent_press, Button.HandleEvent_release,
    Button.HandleEvent_motion]

theorem Button.HandleEvent_MotionNotify_drawn (X : XServer) (b : Button) (x y : Int)
    (hd : b.m_gcInitialized = true) :
    b.HandleEvent X "MotionNotify" x y
      = some (if b.hit x y = true then
          ((b.SetType X b.m_display .SECONDARY).1,
            (b.SetType X b.m_display .SECONDARY).2.2 ++ [Call.cout "Mouse hover"])
        else
          ((b.SetType X b.m_display .PRIMARY).1, (b.SetType X b.m_display .PRIMARY).2.2)) := by
  cases h : b.hit x y <;>
    simp [Button.HandleEvent, Button.HandleEvent_press, Button.HandleEvent_release,
      Button.HandleEvent_motion, Button.display?_drawn b hd, h]

theorem Button.HandleEvent_MotionNotify_fresh (X : XServer) (b : Button) (x y : Int)
    (hf : b.m_gcInitialized = false) : b.HandleEvent X "MotionNotify" x y = none := by
  cases h : b.hit x y <;>
    simp [Button.HandleEvent, Button.HandleEvent_motion, Button.display?_fresh b hf, h]

theorem Button.HandleEvent_motion_eq (X : XServer) (b : Button) (x y : Int)
    (hd : b.m_gcInitialized = true) :
    b.HandleEvent X "MotionNotify" x y
      = some ({ b with color := if b.hit x y = true then namedPair X b.m_display "blue" "yellow"
                                else namedPair X b.m_display "black" "white" },
              if b.hit x y = true then
                [Call.XAllocNamedColor b.m_display "blue",
                 Call.XAllocNamedColor b.m_display "yellow", Call.cout "Mouse hover"]
              else
                [Call.XAllocNamedColor b.m_display "black",
                 Call.XAllocNamedColor b.m_display "white"]) := by
  rw [Button.HandleEvent_MotionNotify_drawn X b x y hd]
  cases h : b.hit x y
  · simp only [Bool.false_eq_true, if_false, Button.SetType_state, Button.SetType_trace]
    rfl
  · simp only [if_true, Button.SetType_state, Button.SetType_trace]
    rfl

theorem Button.HandleEvent_not_motion (X : XServer) (b : Button) (event : String) (x y : Int)
    (h : event ≠ "MotionNotify") :
    b.HandleEvent X event x y
      = some (b, b.HandleEvent_press event x y ++ b.HandleEvent_release event x y) := by
  simp [Button.HandleEvent, Button.HandleEvent_motion, h]

theorem Button.HandleEvent_other (X : XServer) (b : Button) (event : String) (x y : Int)
    (h1 : event ≠ "ButtonPress") (h2 : event ≠ "ButtonRelease")
    (h3 : event ≠ "MotionNotify") :
    b.HandleEvent X event x y = some (b, []) := by
  simp [Button.HandleEvent, Button.HandleEvent_press, Button.HandleEvent_release,
    Button.HandleEvent_motion, h1, h2, h3]

theorem Button.Draw_init_ready (X : XServer) (b : Button) (display : Display) (window : Window)
    (h : b.m_gcInitialized = true) : b.Draw_init X display window = (b, []) := by
  simp [Button.Draw_init, h]

theorem Button.Draw_init_fresh (X : XServer) (b : Button) (display : Display) (window : Window)
    (h : b.m_gcInitialized = false) :
    b.Draw_init X display window
      = ({ b with m_gc := X.XCreateGC display window (X.BlackPixel display),
                  color := namedPair X display "black" "white",
                  m_gcInitialized := true,
                  m_display := display },
          [Call.XCreateGC display window (X.BlackPixel display) 1 LineSolid,
           Call.XAllocNamedColor display "black", Call.XAllocNamedColor display "white"]) := by
  simp [Button.Draw_init, h, Button.SetType, namedPair]

theorem Button.Draw_init_flag (X : XServer) (b : Button) (display : Display) (window : Window) :
    (b.Draw_init X display window).1.m_gcInitialized = true := by
  cases h : b.m_gcInitialized
  · rw [Button.Draw_init_fresh X b display window h]
  · rw [Button.Draw_init_ready X b display window h]
    exact h

theorem Button.Draw_ready (X : XServer) (b : Button) (display : Display) (window : Window)
    (h : b.m_gcInitialized = true) :
    b.Draw X display window = (b, b.Draw_paint X display window) := by
  simp [Button.Draw, Button.Draw_init_ready X b display window h]

theorem Button.Draw_flag (X : XServer) (b : Button) (display : Display) (window : Window) :
    (b.Draw X display window).1.m_gcInitialized = true :=
  Button.Draw_init_flag X b display window

theorem Button.countTextPixelSize_no_XCreateGC (X : XServer) (b : Button) :
    (b.countTextPixelSize X).2.countP Call.isXCreateGC = 0 := by
  unfold Button.countTextPixelSize
  cases X.XLoadQueryFont b.m_display "fixed" <;> simp [Call.isXCreateGC]

theorem Button.Draw_paint_no_XCreateGC (X : XServer) (b : Button) (display : Display)
    (window : Window) : (b.Draw_paint X display window).countP Call.isXCreateGC = 0 := by
  simp [Button.Draw_paint, List.countP_append, Button.countTextPixelSize_no_XCreateGC,
    Call.isXCreateGC]

theorem Button.Draw_fresh_one_XCreateGC (X : XServer) (b : Button) (display : Display)
    (window : Window) (h : b.m_gcInitialized = false) :
    (b.Draw X display window).2.countP Call.isXCreateGC = 1 := by
  simp [Button.Draw, Button.Draw_init_fresh X b display window h, List.countP_append,
    Button.Draw_paint_no_XCreateGC, Call.isXCreateGC, List.countP_cons]

theorem Button.drawEach_ready (X : XServer) (b : Button) (args : List (Display × Window))
    (h : b.m_gcInitialized = true) :
    ∀ r ∈ Button.drawEach X b args, r.1 = b ∧ r.2.countP Call.isXCreateGC = 0 := by
  induction args with
  | nil => simp [Button.drawEach]
  | cons a rest ih =>
    intro r hr
    simp only [Button.drawEach, List.mem_cons] at hr
    rw [Button.Draw_ready X b a.1 a.2 h] at hr
    rcases hr with hr | hr
    · subst hr
      exact ⟨rfl, Button.Draw_paint_no_XCreateGC X b a.1 a.2⟩
    · exact ih r hr

theorem Button.drawEach_length (X : XServer) (b : Button) (args : List (Display × Window)) :
    (Button.drawEach X b args).length = args.length := by
  induction args generalizing b with
  | nil => rfl
  | cons a rest ih => simp [Button.drawEach, ih]

theorem countP_flatten_map_eq_zero {α β : Type} (p : α → Bool) (f : β → List α)
    (l : List β) (h : ∀ r ∈ l, (f r).countP p = 0) : ((l.map f).flatten).countP p = 0 := by
  induction l with
  | nil => rfl
  | cons a rest ih =>
    simp only [List.map_cons, List.flatten_cons, List.countP_append]
    rw [h a (List.mem_cons_self a rest), ih (fun r hr => h r (List.mem_cons_of_mem a hr))]

theorem lastMotion_cons_motion (e : String × Int × Int) (events : List (String × Int × Int))
    (h : e.1 = "MotionNotify") :
    lastMotion (e :: events) = some ((lastMotion events).getD e) := by
  simp [lastMotion, List.filter_cons, h, List.getLast?_cons]

theorem lastMotion_cons_other (e : String × Int × Int) (events : List (String × Int × Int))
    (h : e.1 ≠ "MotionNotify") : lastMotion (e :: events) = lastMotion events := by
  simp [lastMotion, List.filter_cons, h]

theorem lastMotion_eq_none_iff (events : List (String × Int × Int)) :
    lastMotion events = none ↔ ∀ e ∈ events, e.1 ≠ "MotionNotify" := by
  simp [lastMotion, List.getLast?_eq_none_iff, List.filter_eq_nil_iff]

theorem lastMotion_some_motion (events : List (String × Int × Int)) (e : String × Int × Int)
    (h : lastMotion events = some e) : e ∈ events ∧ e.1 = "MotionNotify" := by
  have hm : e ∈ events.filter (fun e => e.1 = "MotionNotify") :=
    List.mem_of_getLast?_eq_some h
  simpa [List.mem_filter] using hm

theorem Button.handleAll_drawn (X : XServer) (b : Button) (events : List (String × Int × Int))
    (hd : b.m_gcInitialized = true) :
    b.handleAll X events
      = some { b with color :=
                match lastMotion events with
                | none => b.color
                | some e =>
                  if b.hit e.2.1 e.2.2 = true then namedPair X b.m_display "blue" "yellow"
                  else namedPair X b.m_display "black" "white" } := by
  induction events generalizing b with
  | nil => rfl
  | cons e rest ih =>
    by_cases hm : e.1 = "MotionNotify"
    · rw [Button.handleAll, hm, Button.HandleEvent_motion_eq X b _ _ hd,
        lastMotion_cons_motion e rest hm]
      simp only []
      refine Eq.trans (ih _ ?_) ?_
      · exact hd
      · cases lastMotion rest <;> rfl
    · rw [Button.handleAll, Button.HandleEvent_not_motion X b e.1 _ _ hm,
        lastMotion_cons_other e rest hm]
      simp only []
      exact ih b hd

/-! ## Container: dispatch and drawing (C1, C2) -/

/-- C1. For every list of components added with `addComponent`, in that order,
and every event `(event, x, y)`, one call of `HandleComponentEvent` runs the
handler of each added component exactly once, front to back, on the arguments
it was given: with arbitrary handlers that return, the components afterwards
are the handler results, position by position, and the trace is the
concatenation of the handler traces in insertion order; with handlers that only
record their invocation the record is one entry per added component, in
insertion order, carrying `event`, `x`, `y` unchanged. The handlers are
arbitrary, so nothing depends on a hit test. -/
theorem C1_HandleComponentEvent_dispatch {σ τ : Type}
    (draw : σ → Display → Window → σ × List τ)
    (handle : σ → String → Int → Int → σ × List τ)
    (components : List σ) (event : String) (x y : Int) :
    (components.foldl AppWindow.addComponent AppWindow.new).HandleComponentEvent
        (Component.returning draw handle) event x y
      = some ({ m_components := components.map (fun c => (handle c event x y).1) },
          (components.map (fun c => (handle c event x y).2)).flatten)
    ∧ (∀ (V : Component σ τ) (h : σ → σ × List τ),
        (∀ c ∈ components, V.HandleEvent c event x y = some (h c)) →
        (components.foldl AppWindow.addComponent AppWindow.new).HandleComponentEvent
            V event x y
          = some ({ m_components := components.map (fun c => (h c).1) },
              (components.map (fun c => (h c).2)).flatten))
    ∧ (components.foldl AppWindow.addComponent AppWindow.new).HandleComponentEvent
        (Component.recorder σ) event x y
      = some ({ m_components := components },
          components.map (fun c => Invocation.HandleEvent c event x y)) := by
  have key : ∀ (V : Component σ τ) (h : σ → σ × List τ),
      (∀ c ∈ components, V.HandleEvent c event x y = some (h c)) →
      (components.foldl AppWindow.addComponent AppWindow.new).HandleComponentEvent
          V event x y
        = some ({ m_components := components.map (fun c => (h c).1) },
            (components.map (fun c => (h c).2)).flatten) := by
    intro V h hV
    have := AppWindow.HandleComponentEvent_returning V h
      (components.foldl AppWindow.addComponent AppWindow.new) event x y
      (by simpa only [AppWindow.added_components] using hV)
    simpa only [AppWindow.added_components] using this
  refine ⟨key _ (fun c => handle c event x y) (fun _ _ => rfl), key, ?_⟩
  have := AppWindow.HandleComponentEvent_returning (Component.recorder σ)
    (fun c => (c, [Invocation.HandleEvent c event x y]))
    (components.foldl AppWindow.addComponent AppWindow.new) event x y (fun _ _ => rfl)
  simpa only [AppWindow.added_components, map_singleton_flatten, List.map_id'] using this

/-- C2. For every list of components added with `addComponent`, in that order,
one call of `DrawComponents display window` runs `Draw` of each added component
exactly once, front to back, on the `display` and `window` it was given: with
arbitrary `Draw` methods that return, the components afterwards are the `Draw`
results, position by position, and the trace is the concatenation of the `Draw`
traces in insertion order; with components that only record their invocation
the record is one entry per added component, in insertion order, carrying
`display` and `window` unchanged. -/
theorem C2_DrawComponents_dispatch {σ τ : Type}
    (draw : σ → Display → Window → σ × List τ)
    (handle : σ → String → Int → Int → σ × List τ)
    (components : List σ) (display : Display) (window : Window) :
    (components.foldl AppWindow.addComponent AppWindow.new).DrawComponents
        (Component.returning draw handle) display window
      = some ({ m_components := components.map (fun c => (draw c display window).1) },
          (components.map (fun c => (draw c display window).2)).flatten)
    ∧ (∀ (V : Component σ τ) (h : σ → σ × List τ),
        (∀ c ∈ components, V.Draw c display window = some (h c)) →
        (components.foldl AppWindow.addComponent AppWindow.new).DrawComponents
            V display window
          = some ({ m_components := components.map (fun c => (h c).1) },
              (components.map (fun c => (h c).2)).flatten))
    ∧ (components.foldl AppWindow.addComponent AppWindow.new).DrawComponents
        (Component.recorder σ) display window
      = some ({ m_components := components },
          components.map (fun c => Invocation.Draw c display window)) := by
  have key : ∀ (V : Component σ τ) (h : σ → σ × List τ),
      (∀ c ∈ components, V.Draw c display window = some (h c)) →
      (components.foldl AppWindow.addComponent AppWindow.new).DrawComponents
          V display window
        = some ({ m_components := components.map (fun c => (h c).1) },
            (components.map (fun c => (h c).2)).flatten) := by
    intro V h hV
    have := AppWindow.DrawComponents_returning V h
      (components.foldl AppWindow.addComponent AppWindow.new) display window
      (by simpa only [AppWindow.added_components] using hV)
    simpa only [AppWindow.added_components] using this
  refine ⟨key _ (fun c => draw c display window) (fun _ _ => rfl), key, ?_⟩
  have := AppWindow.DrawComponents_returning (Component.recorder σ)
    (fun c => (c, [Invocation.Draw c display window]))
    (components.foldl AppWindow.addComponent AppWindow.new) display window (fun _ _ => rfl)
  simpa only [AppWindow.added_components, map_singleton_flatten, List.map_id'] using this

/-! ## Button: colour resolution (C5) -/

/-- C5. For every button, display and `ButtonType` `t`, `SetType display t`
requests the named colours black and white for `PRIMARY`, blue and yellow for
`SECONDARY`, black and white for `TERTIARY` (text first, background second),
stores the resolved pair in `color` and changes no other member, and returns a
value equal to the stored pair. -/
theorem C5_SetType_resolves_stores_returns (X : XServer) (b : Button) (display : Display)
    (t : ButtonType) :
    (b.SetType X display t).2.2
      = (match t with
         | .PRIMARY =>
            [Call.XAllocNamedColor display "black", Call.XAllocNamedColor display "white"]
         | .SECONDARY =>
            [Call.XAllocNamedColor display "blue", Call.XAllocNamedColor display "yellow"]
         | .TERTIARY =>
            [Call.XAllocNamedColor display "black", Call.XAllocNamedColor display "white"])
    ∧ (b.SetType X display t).1.color
      = (match t with
         | .PRIMARY => namedPair X display "black" "white"
         | .SECONDARY => namedPair X display "blue" "yellow"
         | .TERTIARY => namedPair X display "black" "white")
    ∧ (b.SetType X display t).1 = { b with color := (b.SetType X display t).1.color }
    ∧ (b.SetType X display t).2.1 = (b.SetType X display t).1.color := by
  cases t <;> exact ⟨rfl, rfl, rfl, rfl⟩

/-! ## Button: hit test (C3) -/

/-- C3, the claim as stated fails. `Button(2147483647, 0, 1, 24)` and the point
`(2147483647, 0)`: the point satisfies `m_x <= x <= m_x + m_width` and
`m_y <= y <= m_y + m_height`, but the `int` sum `m_x + m_width` wraps to
`-2147483648`, the test of `HandleEvent` fails and a `"ButtonPress"` there
reports nothing. And on the never-drawn button of rectangle `(10, 10, 50, 24)` a
`"MotionNotify"` at the inside point `(10, 10)` does not return at all. -/
theorem C3_counterexample_wrapped_edge :
    ¬ (edgeButton.hit 2147483647 0 = true ↔
        (edgeButton.m_x ≤ 2147483647 ∧ 2147483647 ≤ edgeButton.m_x + edgeButton.m_width)
          ∧ (edgeButton.m_y ≤ 0 ∧ 0 ≤ edgeButton.m_y + edgeButton.m_height))
    ∧ edgeButton.HandleEvent sampleServer "ButtonPress" 2147483647 0 = some (edgeButton, [])
    ∧ freshButton.inside 10 10
    ∧ freshButton.HandleEvent sampleServer "MotionNotify" 10 10 = none := by
  decide

/-- C3 as amended. For every button whose sums `m_x + m_width` and
`m_y + m_height` are values of an `int`, and every point `(x, y)`, the test
`HandleEvent` applies holds iff `m_x <= x <= m_x + m_width` and
`m_y <= y <= m_y + m_height` (bounds inclusive), and the same test decides the
three event kinds: the press report, the release report, and, on an
already-drawn button, the choice between `SetType SECONDARY` with the hover
report and `SetType PRIMARY`. For the rectangle `(10, 10, 50, 24)` the points
`(10, 10)` and `(60, 34)` pass the test and `(9, 10)` and `(61, 10)` fail it. -/
theorem C3_hit_test_inclusive (X : XServer) (b : Button) (x y : Int) (hfits : b.fits) :
    (b.hit x y = true ↔
        (b.m_x ≤ x ∧ x ≤ b.m_x + b.m_width) ∧ (b.m_y ≤ y ∧ y ≤ b.m_y + b.m_height))
    ∧ b.HandleEvent X "ButtonPress" x y
        = some (b, if b.inside x y then [Call.cout "Button pressed"] else [])
    ∧ b.HandleEvent X "ButtonRelease" x y
        = some (b, if b.inside x y then [Call.cout "Button released"] else [])
    ∧ (b.m_gcInitialized = true →
        b.HandleEvent X "MotionNotify" x y
          = some (if b.inside x y then
              ((b.SetType X b.m_display .SECONDARY).1,
                (b.SetType X b.m_display .SECONDARY).2.2 ++ [Call.cout "Mouse hover"])
            else
              ((b.SetType X b.m_display .PRIMARY).1,
                (b.SetType X b.m_display .PRIMARY).2.2)))
    ∧ (∀ (text : String) (u : Indeterminate),
        (Button.new 10 10 50 24 text u).hit 10 10 = true
        ∧ (Button.new 10 10 50 24 text u).hit 60 34 = true
        ∧ (Button.new 10 10 50 24 text u).hit 9 10 = false
        ∧ (Button.new 10 10 50 24 text u).hit 61 10 = false) := by
  have hh := Button.hit_iff_inside b x y hfits
  refine ⟨hh, ?_, ?_, ?_, ?_⟩
  · rw [Button.HandleEvent_ButtonPress]
    simp only [hh]
  · rw [Button.HandleEvent_ButtonRelease]
    simp only [hh]
  · intro hd
    rw [Button.HandleEvent_MotionNotify_drawn X b x y hd]
    simp only [hh]
  · intro text u
    simp [Button.hit, Button.new, int32]

theorem C3_hit_test_inclusive_witness :
    sampleButton.fits
    ∧ (sampleButton.hit 60 34 = true ↔
        (sampleButton.m_x ≤ 60 ∧ 60 ≤ sampleButton.m_x + sampleButton.m_width)
          ∧ (sampleButton.m_y ≤ 34 ∧ 34 ≤ sampleButton.m_y + sampleButton.m_height)) :=
  ⟨by decide, (C3_hit_test_inclusive sampleServer sampleButton 60 34 (by decide)).1⟩

/-! ## Button: press and release (C7) -/

/-- C7, the claim as stated fails. `Button(2147483647, 0, 1, 24)` and the point
`(2147483647, 0)`, which is inside the rectangle: neither `"ButtonPress"` nor
`"ButtonRelease"` reports anything there, the `int` sum `m_x + m_width` having
wrapped. -/
theorem C7_counterexample_no_report_inside :
    edgeButton.inside 2147483647 0
    ∧ edgeButton.HandleEvent sampleServer "ButtonPress" 2147483647 0 = some (edgeButton, [])
    ∧ edgeButton.HandleEvent sampleServer "ButtonRelease" 2147483647 0
        = some (edgeButton, []) := by
  decide

/-- C7 as amended. For every button state and every `(x, y)`, `HandleEvent`
with `"ButtonPress"` or `"ButtonRelease"` returns, with the button unchanged in
every member (visual state, colour pair, rectangle, label, resources-ready
flag), and its whole trace is the one line `Button pressed` (resp.
`Button released`) when the point passes the hit test of the source and is
empty when it does not; when the sums `m_x + m_width` and `m_y + m_height` are
values of an `int`, passing the hit test is being inside the rectangle, so the
report is issued iff the point is inside. -/
theorem C7_press_release_frame (X : XServer) (b : Button) (x y : Int) :
    b.HandleEvent X "ButtonPress" x y
        = some (b, if b.hit x y = true then [Call.cout "Button pressed"] else [])
    ∧ b.HandleEvent X "ButtonRelease" x y
        = some (b, if b.hit x y = true then [Call.cout "Button released"] else [])
    ∧ (b.fits →
        b.HandleEvent X "ButtonPress" x y
            = some (b, if b.inside x y then [Call.cout "Button pressed"] else [])
        ∧ b.HandleEvent X "ButtonRelease" x y
            = some (b, if b.inside x y then [Call.cout "Button released"] else [])
        ∧ (∀ r, b.HandleEvent X "ButtonPress" x y = some r →
            (Call.cout "Button pressed" ∈ r.2 ↔ b.inside x y))
        ∧ (∀ r, b.HandleEvent X "ButtonRelease" x y = some r →
            (Call.cout "Button released" ∈ r.2 ↔ b.inside x y))) := by
  refine ⟨Button.HandleEvent_ButtonPress X b x y, Button.HandleEvent_ButtonRelease X b x y, ?_⟩
  intro hfits
  have hh := Button.hit_iff_inside b x y hfits
  rw [Button.HandleEvent_ButtonPress, Button.HandleEvent_ButtonRelease]
  simp only [hh]
  refine ⟨trivial, trivial, ?_, ?_⟩ <;>
  · intro r hr
    cases hr
    by_cases h : b.inside x y <;> simp [h]

theorem C7_press_release_frame_witness :
    sampleButton.fits
    ∧ sampleButton.HandleEvent sampleServer "ButtonPress" 10 10
        = some (sampleButton,
            if sampleButton.inside 10 10 then [Call.cout "Button pressed"] else []) :=
  ⟨by decide, ((C7_press_release_frame sampleServer sampleButton 10 10).2.2 (by decide)).1⟩

/-! ## Button: hover transition (C4) -/

/-- C4, the claim as stated fails, in two ways. A never-drawn button holding
the Primary pair (here after `SetType(display, PRIMARY)` from outside), and the
freshly constructed button alike: a `"MotionNotify"` at the inside point
`(10, 10)` does not return, `m_display` being unset. And the drawn
`Button(2147483647, 0, 1, 24)` in visual state Primary: a `"MotionNotify"` at
the inside point `(2147483647, 0)` takes the `SetType PRIMARY` branch and leaves
the button as it was, the `int` sum `m_x + m_width` having wrapped. -/
theorem C4_counterexample_undrawn_and_edge :
    primedButton.inVisualState sampleServer .PRIMARY
    ∧ primedButton.inside 10 10
    ∧ primedButton.HandleEvent sampleServer "MotionNotify" 10 10 = none
    ∧ freshButton.HandleEvent sampleServer "MotionNotify" 10 10 = none
    ∧ edgeButton.m_gcInitialized = true
    ∧ edgeButton.inVisualState sampleServer .PRIMARY
    ∧ edgeButton.inside 2147483647 0
    ∧ edgeButton.HandleEvent sampleServer "MotionNotify" 2147483647 0
        = some (edgeButton,
            [Call.XAllocNamedColor 1 "black", Call.XAllocNamedColor 1 "white"])
    ∧ ¬ edgeButton.inVisualState sampleServer .SECONDARY := by
  decide

/-- C4 as amended. For every already-drawn button in visual state Primary whose
sums `m_x + m_width` and `m_y + m_height` are values of an `int`, a
`"MotionNotify"` event at a point inside the rectangle returns and leaves the
button in visual state Secondary with colour pair (text blue, background
yellow), all other members unchanged, after the two colour requests and the
hover report; a following `"MotionNotify"` event at a point outside the
rectangle returns and leaves it in visual state Primary with colour pair (text
black, background white), which is the state the button started from. Where
the server resolves the two pairs to different colours, the button is not in
visual state Primary in between. -/
theorem C4_hover_in_then_out (X : XServer) (b : Button) (x y x2 y2 : Int)
    (hdrawn : b.m_gcInitialized = true) (hfits : b.fits)
    (hPrimary : b.inVisualState X .PRIMARY) (hin : b.inside x y) (hout : ¬ b.inside x2 y2) :
    b.HandleEvent X "MotionNotify" x y
      = some ({ b with color := namedPair X b.m_display "blue" "yellow" },
          [Call.XAllocNamedColor b.m_display "blue", Call.XAllocNamedColor b.m_display "yellow",
           Call.cout "Mouse hover"])
    ∧ ({ b with color := namedPair X b.m_display "blue" "yellow" } : Button).inVisualState
        X .SECONDARY
    ∧ ({ b with color := namedPair X b.m_display "blue" "yellow" } : Button).HandleEvent
        X "MotionNotify" x2 y2
      = some (b, [Call.XAllocNamedColor b.m_display "black",
                  Call.XAllocNamedColor b.m_display "white"])
    ∧ b.color = namedPair X b.m_display "black" "white"
    ∧ b.inVisualState X .PRIMARY
    ∧ (namedPair X b.m_display "blue" "yellow" ≠ namedPair X b.m_display "black" "white" →
        ¬ ({ b with color := namedPair X b.m_display "blue" "yellow" } : Button).inVisualState
            X .PRIMARY) := by
  have hc : b.color = namedPair X b.m_display "black" "white" := by
    have := hPrimary
    rwa [Button.inVisualState, Button.SetType_result] at this
  have hb : ({ b with color := namedPair X b.m_display "black" "white" } : Button) = b := by
    cases b
    simp only [Button.mk.injEq, true_and, and_true] at hc ⊢
    exact hc.symm
  have h1 : b.hit x y = true := (Button.hit_iff_inside b x y hfits).mpr hin
  have h2 : ({ b with color := namedPair X b.m_display "blue" "yellow" } : Button).hit x2 y2
      = false := by
    have : b.hit x2 y2 = false := by
      rw [Button.hit_eq_decide b x2 y2 hfits]
      exact decide_eq_false hout
    exact this
  refine ⟨?_, ?_, ?_, hc, hPrimary, ?_⟩
  rotate_left 3
  · intro hne hP
    apply hne
    simpa only [Button.inVisualState, Button.SetType_result] using hP
  · rw [Button.HandleEvent_motion_eq X b x y hdrawn, if_pos h1, if_pos h1]
  · simp only [Button.inVisualState, Button.SetType_result]
    rfl
  · refine (Button.HandleEvent_motion_eq X _ x2 y2 ?_).trans ?_
    · exact hdrawn
    · rw [h2]
      simp only [Bool.false_eq_true, if_false]
      exact congrArg some (Prod.ext hb rfl)

theorem C4_hover_in_then_out_witness :
    sampleButton.m_gcInitialized = true ∧ sampleButton.fits
    ∧ sampleButton.inVisualState sampleServer .PRIMARY
    ∧ sampleButton.inside 10 10 ∧ ¬ sampleButton.inside 9 10
    ∧ sampleButton.HandleEvent sampleServer "MotionNotify" 10 10
      = some ({ sampleButton with
                  color := namedPair sampleServer sampleButton.m_display "blue" "yellow" },
          [Call.XAllocNamedColor sampleButton.m_display "blue",
           Call.XAllocNamedColor sampleButton.m_display "yellow", Call.cout "Mouse hover"]) :=
  ⟨by decide, by decide, by decide, by decide, by decide,
    (C4_hover_in_then_out sampleServer sampleButton 10 10 9 10
      (by decide) (by decide) (by decide) (by decide) (by decide)).1⟩

/-! ## Button: drawing (C6, C9) -/

/-- C6. For every `N >= 1` and every `N` consecutive `Draw` calls on a freshly
constructed button, `XCreateGC` is requested exactly once over all the calls,
and that request is issued by the first call; every later call issues none;
after the first call and after every later call `m_gcInitialized` is true. -/
theorem C6_XCreateGC_exactly_once (X : XServer) (x y width height : Int) (text : String)
    (u : Indeterminate) (args : List (Display × Window)) (hN : 1 ≤ args.length) :
    (((Button.drawEach X (Button.new x y width height text u) args).map
        (fun r => r.2)).flatten).countP Call.isXCreateGC = 1
    ∧ (∃ first later, Button.drawEach X (Button.new x y width height text u) args
          = first :: later
        ∧ first.2.countP Call.isXCreateGC = 1
        ∧ ∀ r ∈ later, r.2.countP Call.isXCreateGC = 0)
    ∧ (∀ r ∈ Button.drawEach X (Button.new x y width height text u) args,
        r.1.m_gcInitialized = true)
    ∧ (Button.drawEach X (Button.new x y width height text u) args).length = args.length := by
  cases args with
  | nil => simp at hN
  | cons a rest =>
    have hfresh : (Button.new x y width height text u).m_gcInitialized = false := rfl
    have hflag := Button.Draw_flag X (Button.new x y width height text u) a.1 a.2
    have hone := Button.Draw_fresh_one_XCreateGC X (Button.new x y width height text u)
      a.1 a.2 hfresh
    have hlater := Button.drawEach_ready X
      ((Button.new x y width height text u).Draw X a.1 a.2).1 rest hflag
    refine ⟨?_, ⟨_, _, rfl, hone, fun r hr => (hlater r hr).2⟩, ?_,
      Button.drawEach_length X _ _⟩
    · simp only [Button.drawEach, List.map_cons, List.flatten_cons, List.countP_append]
      rw [hone, countP_flatten_map_eq_zero Call.isXCreateGC (fun r => r.2) _
        (fun r hr => (hlater r hr).2)]
    · intro r hr
      simp only [Button.drawEach, List.mem_cons] at hr
      rcases hr with hr | hr
      · rw [hr]
        exact hflag
      · rw [(hlater r hr).1]
        exact hflag

theorem C6_XCreateGC_exactly_once_witness :
    1 ≤ [((1 : Display), (2 : Window)), (1, 2), (1, 2)].length
    ∧ (((Button.drawEach sampleServer (Button.new 10 10 50 24 "File" sampleIndeterminate)
          [(1, 2), (1, 2), (1, 2)]).map (fun r => r.2)).flatten).countP Call.isXCreateGC = 1 :=
  ⟨by decide,
    (C6_XCreateGC_exactly_once sampleServer 10 10 50 24 "File" sampleIndeterminate
      [(1, 2), (1, 2), (1, 2)] (by decide)).1⟩

/-- C9. For every button (freshly constructed or already drawn, with any colour
pair), two consecutive `Draw` calls on the same display and window: the state
after the second call equals the state after the first, in particular the
colour pair and the measured label width are the same, and the second call
issues exactly the border, background and text requests the first call issued,
the first call having issued before them only the creation of the drawing
context and the resolution of black and white when the button was not yet
initialised. -/
theorem C9_Draw_twice (X : XServer) (b : Button) (display : Display) (window : Window) :
    ((b.Draw X display window).1.Draw X display window).1 = (b.Draw X display window).1
    ∧ ((b.Draw X display window).1.Draw X display window).1.color
        = (b.Draw X display window).1.color
    ∧ (((b.Draw X display window).1.Draw X display window).1.countTextPixelSize X).1
        = ((b.Draw X display window).1.countTextPixelSize X).1
    ∧ ((b.Draw X display window).1.Draw X display window).2
        = (b.Draw X display window).1.Draw_paint X display window
    ∧ (b.Draw X display window).2
        = (if b.m_gcInitialized = true then []
           else [Call.XCreateGC display window (X.BlackPixel display) 1 LineSolid,
                 Call.XAllocNamedColor display "black",
                 Call.XAllocNamedColor display "white"])
          ++ ((b.Draw X display window).1.Draw X display window).2 := by
  have h2 := Button.Draw_ready X (b.Draw X display window).1 display window
    (Button.Draw_flag X b display window)
  rw [h2]
  refine ⟨rfl, rfl, rfl, rfl, ?_⟩
  cases h : b.m_gcInitialized
  · simp [Button.Draw, Button.Draw_init_fresh X b display window h]
  · simp [Button.Draw, Button.Draw_init_ready X b display window h]

/-! ## Button: sequences of events (C10) -/

/-- C10, the claim as stated fails. The drawn `Button(2147483647, 0, 1, 24)` and
the one-event sequence `MotionNotify (2147483647, 0)`: the point of the last
motion event is inside the rectangle, but the final colour pair is (black,
white), not (blue, yellow), the `int` sum `m_x + m_width` having wrapped. -/
theorem C10_counterexample_edge_motion :
    edgeButton.m_gcInitialized = true
    ∧ lastMotion [("MotionNotify", 2147483647, 0)] = some ("MotionNotify", 2147483647, 0)
    ∧ edgeButton.inside 2147483647 0
    ∧ (edgeButton.handleAll sampleServer [("MotionNotify", 2147483647, 0)]).map
        (fun s => s.color) = some (namedPair sampleServer 1 "black" "white")
    ∧ namedPair sampleServer 1 "black" "white" ≠ namedPair sampleServer 1 "blue" "yellow" := by
  decide

/-- C10 as amended. For every already-drawn button whose sums `m_x + m_width`
and `m_y + m_height` are values of an `int`, and every finite sequence of
events delivered through `HandleEvent`, whatever their kinds, every call
returns and the final colour pair is decided by the last `"MotionNotify"` event
of the sequence: (blue, yellow) if its point is inside the rectangle, (black,
white) if it is outside, and the pair before the sequence if the sequence holds
no `"MotionNotify"` event; no other member of the button changes. -/
theorem C10_color_follows_last_motion (X : XServer) (b : Button)
    (events : List (String × Int × Int))
    (hdrawn : b.m_gcInitialized = true) (hfits : b.fits) :
    b.handleAll X events
      = some { b with color :=
                match lastMotion events with
                | none => b.color
                | some e =>
                  if b.inside e.2.1 e.2.2 then namedPair X b.m_display "blue" "yellow"
                  else namedPair X b.m_display "black" "white" }
    ∧ (lastMotion events = none ↔ ∀ e ∈ events, e.1 ≠ "MotionNotify")
    ∧ (∀ e, lastMotion events = some e → e ∈ events ∧ e.1 = "MotionNotify") := by
  refine ⟨?_, lastMotion_eq_none_iff events, lastMotion_some_motion events⟩
  rw [Button.handleAll_drawn X b events hdrawn]
  cases lastMotion events with
  | none => rfl
  | some e => simp only [Button.hit_iff_inside b _ _ hfits]

theorem C10_color_follows_last_motion_witness :
    sampleButton.m_gcInitialized = true ∧ sampleButton.fits
    ∧ sampleButton.handleAll sampleServer sampleEvents
      = some { sampleButton with color :=
                match (lastMotion sampleEvents) with
                | none => sampleButton.color
                | some e =>
                  if sampleButton.inside e.2.1 e.2.2 then
                    namedPair sampleServer sampleButton.m_display "blue" "yellow"
                  else namedPair sampleServer sampleButton.m_display "black" "white" } :=
  ⟨by decide, by decide,
    (C10_color_follows_last_motion sampleServer sampleButton sampleEvents
      (by decide) (by decide)).1⟩

/-! ## The window assembled by main (C8) -/

/-- C8, the code at the input of the claim. In the window `main` assembles the
four buttons are `File`, `Edit`, `Help`, `About` at `x` = 0, 37, 74, 111 with
`y` = 0, width 0 and height 24. An `Expose` draws them all and returns. After
it, a `"MotionNotify"` at `(5, 5)` delivered through `HandleComponentEvent`
passes the hit test of no button, `File` included (its test accepts only
`x` = 0): every button takes the `SetType PRIMARY` branch, the call returns the
window it was given, the trace holds no hover report and no request for blue or
yellow, and on the sample server no button is in visual state Secondary. -/
theorem C8_main_motion_5_5_hits_nothing (X : XServer) (u : Nat → Indeterminate)
    (display : Display) (window : Window) :
    (main_appWindow u).m_components.map
        (fun b => (b.m_text, b.m_x, b.m_y, b.m_width, b.m_height))
      = [("File", 0, 0, 0, 24), ("Edit", 37, 0, 0, 24), ("Help", 74, 0, 0, 24),
         ("About", 111, 0, 0, 24)]
    ∧ main_afterExpose X u display window
      = some { m_components :=
                (main_appWindow u).m_components.map (fun b => (b.Draw X display window).1) }
    ∧ (∀ drawn, main_afterExpose X u display window = some drawn →
        drawn.m_components.map (fun b => b.hit 5 5) = [false, false, false, false]
        ∧ drawn.HandleComponentEvent (Button.asComponent X) "MotionNotify" 5 5
          = some (drawn,
              [Call.XAllocNamedColor display "black", Call.XAllocNamedColor display "white",
               Call.XAllocNamedColor display "black", Call.XAllocNamedColor display "white",
               Call.XAllocNamedColor display "black", Call.XAllocNamedColor display "white",
               Call.XAllocNamedColor display "black", Call.XAllocNamedColor display "white"])
        ∧ main_loopBody X display window drawn (XEvent.MotionNotify 5 5)
          = drawn.HandleComponentEvent (Button.asComponent X) "MotionNotify" 5 5
        ∧ drawn.m_components.map (fun b => b.color)
          = [namedPair X display "black" "white", namedPair X display "black" "white",
             namedPair X display "black" "white", namedPair X display "black" "white"])
    ∧ (main_afterExpose sampleServer (fun _ => sampleIndeterminate) 1 2).bind
        (fun drawn =>
          (drawn.HandleComponentEvent (Button.asComponent sampleServer)
            "MotionNotify" 5 5).map
            (fun r => r.1.m_components.map
              (fun b => decide (b.inVisualState sampleServer .SECONDARY))))
      = some [false, false, false, false] := by
  have hExpose : main_afterExpose X u display window
      = some { m_components :=
                (main_appWindow u).m_components.map (fun b => (b.Draw X display window).1) } := by
    simp only [main_afterExpose, main_loopBody]
    rw [AppWindow.DrawComponents_returning (Button.asComponent X)
      (fun b => b.Draw X display window) (main_appWindow u) display window (fun _ _ => rfl)]
    rfl
  refine ⟨rfl, hExpose, ?_, by decide⟩
  intro drawn hdrawn
  rw [hExpose] at hdrawn
  cases hdrawn
  refine ⟨?_, ?_, rfl, ?_⟩ <;>
    simp [main_appWindow, main_addButtons, buttonNames, AppWindow.HandleComponentEvent,
      AppWindow.forEach, AppWindow.addComponent, AppWindow.new, Button.asComponent,
      Button.Draw, Button.Draw_init, Button.new, Button.SetType, Button.HandleEvent,
      Button.HandleEvent_press, Button.HandleEvent_release, Button.HandleEvent_motion,
      Button.display?, Button.hit, namedPair, int32]

end Daw
